import Mathlib

/-!
Verification of the websnake multiplayer game server core: the player
registry, the movement/trail pipeline, and the kill-attribution and
respawn logic of the GameServer class (join, move, killPlayer handlers).

The JavaScript runtime is embedded shallowly: the socket.io `players`
Map becomes an association list keyed by session id, `Date.now()` becomes
an explicit `now : Int` parameter, `Math.random()`-derived values become
explicit parameters, and every `emit`/`broadcast` call is collected into
an ordered list of `Emit` values returned alongside the new registry.
Optional / possibly-absent fields of client payloads are `Option`s, and
JavaScript truthiness tests on them are translated field by field
(a string is truthy iff nonempty; a number is truthy iff nonzero).
-/

namespace Websnake

/-- Direction a player faces, one of the four string constants in the source. -/
inductive Direction
  | up
  | down
  | left
  | right
deriving DecidableEq, Repr

/-- TrailSegment interface from GameServer: a recorded position, its timestamp,
and whether the owner was invincible when it was laid down. -/
structure TrailSegment where
  x : Int
  y : Int
  timestamp : Int
  isInvincible : Bool
deriving DecidableEq, Repr

/-- Player interface from GameServer. -/
structure Player where
  id : String
  x : Int
  y : Int
  username : String
  color : String
  direction : Direction
  spriteRow : Nat
  isMoving : Bool
  invincibleUntil : Int
  score : Nat
  trail : List TrailSegment
deriving DecidableEq, Repr

/-- The `players` Map of GameServer, as an insertion-ordered association list
from session id to Player. -/
abbrev GameState := List (String × Player)

/-- Map.get: first binding for the key, if any. -/
def getPlayer : GameState → String → Option Player
  | [], _ => none
  | (k, p) :: rest, q => if k = q then some p else getPlayer rest q

/-- Map.set: overwrite the first binding in place when the key is present,
otherwise append a new binding at the end (insertion order, as a JS Map). -/
def setPlayer : GameState → String → Player → GameState
  | [], q, p => [(q, p)]
  | (k, p0) :: rest, q, p =>
    if k = q then (q, p) :: rest else (k, p0) :: setPlayer rest q p

theorem getPlayer_setPlayer_self (s : GameState) (q : String) (p : Player) :
    getPlayer (setPlayer s q p) q = some p := by
  induction s with
  | nil => simp [setPlayer, getPlayer]
  | cons kv rest ih =>
    obtain ⟨k, p0⟩ := kv
    by_cases h : k = q
    · simp [setPlayer, getPlayer, h]
    · simp [setPlayer, getPlayer, h, ih]

theorem getPlayer_setPlayer_ne (s : GameState) (q r : String) (p : Player)
    (h : r ≠ q) : getPlayer (setPlayer s q p) r = getPlayer s r := by
  have h2 : q ≠ r := Ne.symm h
  induction s with
  | nil => simp [setPlayer, getPlayer, h2]
  | cons kv rest ih =>
    obtain ⟨k, p0⟩ := kv
    by_cases hk : k = q
    · subst hk
      simp [setPlayer, getPlayer, h2]
    · simp [setPlayer, getPlayer, hk, ih]

/-- Two registries assign the same score to every session id
(absent sessions agreeing on absence). -/
def sameScores (s t : GameState) : Prop :=
  ∀ q, (getPlayer t q).map Player.score = (getPlayer s q).map Player.score

/-- Two registries assign the same score to every session id other than `k`. -/
def sameScoresExcept (s t : GameState) (k : String) : Prop :=
  ∀ q, q ≠ k → (getPlayer t q).map Player.score = (getPlayer s q).map Player.score

/-- JavaScript truthiness of a possibly-absent string: truthy iff present and nonempty. -/
def jsTruthy : Option String → Bool
  | none => false
  | some s => decide (s ≠ "")

/-- The pattern x-or-else-default on a possibly-absent string, as in
collisionType-or-else-player: the default is used when the field is absent or empty. -/
def jsStringOr (o : Option String) (d : String) : String :=
  match o with
  | none => d
  | some s => if s = "" then d else s

/-- Payload of a client move event (MoveData): position is required, the
rest is optional. The trail field sent by clients is ignored by the server. -/
structure MoveData where
  x : Int
  y : Int
  direction : Option Direction := none
  isMoving : Option Bool := none
  invincibleUntil : Option Int := none
deriving DecidableEq, Repr

/-- Payload of a client killPlayer event: every field may be absent, and the
victim is always the sending session. Includes the redundant self-kill booleans. -/
structure KillData where
  killedBy : Option String := none
  killerUsername : Option String := none
  collisionType : Option String := none
  isSelfKill : Option Bool := none
  killerIsDeadPlayer : Option Bool := none
  deadPlayerIsKiller : Option Bool := none
  killerIdMatchesVictimId : Option Bool := none
deriving DecidableEq, Repr

/-- Payload of a scoreUpdated broadcast. -/
structure ScoreUpdate where
  id : String
  score : Nat
  username : String
  killedUsername : String
  deathType : String
  isSelfKill : Bool
deriving DecidableEq, Repr

/-- The server-to-client events the handlers produce. -/
inductive GameEvent
  | init (p : Player)
  | playerJoined (p : Player)
  | existingPlayers (ps : List Player)
  | playerMoved (id : String) (d : MoveData) (trail : List TrailSegment)
  | playerDied (id : String) (username : String) (deathType : String)
  | selfRespawn (x : Int) (y : Int) (invincibleUntil : Int)
  | serverRespawn (id : String) (x : Int) (y : Int) (invincibleUntil : Int)
  | scoreUpdated (u : ScoreUpdate)
deriving DecidableEq, Repr

/-- An emission: io.emit (to all), socket.broadcast.emit (to all but the
origin), or socket.emit (to one session). -/
inductive Emit
  | toAll (e : GameEvent)
  | toOthers (origin : String) (e : GameEvent)
  | toOne (target : String) (e : GameEvent)
deriving DecidableEq, Repr

/-- The fixed 16-color palette of getRandomColor. -/
def palette : List String :=
  ["#FF5733", "#33FF57", "#3357FF", "#FF33F5",
   "#F5FF33", "#33FFF5", "#F533FF", "#FF3333",
   "#7D3C98", "#2ECC71", "#F1C40F", "#E74C3C",
   "#3498DB", "#1ABC9C", "#F39C12", "#8E44AD"]

/-- getRandomColor: indexes the palette at the random draw
floor(random * palette.length), passed here explicitly as `r` (so 0 ≤ r < 16
for a real draw). No check against colors already in use, no perturbation. -/
def getRandomColor (r : Nat) : String :=
  palette.getD r ""

/-- The join handler: create the player (random spawn position `rx, ry`,
random color draw `rColor`, random sprite row `rSprite` passed explicitly),
register it, send init to the joiner, playerJoined to the others, and the
existing roster (everyone but the joiner) to the joiner. -/
def joinHandler (s : GameState) (sid username : String) (rx ry : Int)
    (rColor rSprite : Nat) (now : Int) : GameState × List Emit :=
  let player : Player :=
    { id := sid, x := rx, y := ry, username := username,
      color := getRandomColor rColor, direction := Direction.down,
      spriteRow := rSprite, isMoving := false,
      invincibleUntil := now + 2000, score := 0, trail := [] }
  let s1 := setPlayer s sid player
  let existing := (s1.map Prod.snd).filter (fun p => p.id != sid)
  (s1, [Emit.toOne sid (GameEvent.init player),
        Emit.toOthers sid (GameEvent.playerJoined player),
        Emit.toOne sid (GameEvent.existingPlayers existing)])

/-- The trail cap of the move handler: when the trail exceeds 40 segments,
slice(-40) keeps only the last 40. -/
def capTrail (t : List TrailSegment) : List TrailSegment :=
  if t.length > 40 then t.drop (t.length - 40) else t

/-- The trail segment the move handler records: the player's pre-update
position, the current time, and the live invincibility status. -/
def recordedSegment (player : Player) (now : Int) : TrailSegment :=
  { x := player.x, y := player.y, timestamp := now,
    isInvincible := decide (player.invincibleUntil > now) }

/-- The sequence of in-place mutations the move handler performs on the
registered player, in source order: trail recording and cap when the payload's
moving flag is truthy, then the unconditional position overwrite, then each
optional field under its truthiness test. -/
def movedPlayer (player : Player) (data : MoveData) (now : Int) : Player :=
  let player2 : Player :=
    if data.isMoving = some true then
      { player with trail := capTrail (player.trail ++ [recordedSegment player now]) }
    else player
  let player3 : Player := { player2 with x := data.x, y := data.y }
  let player4 : Player :=
    match data.direction with
    | some d => { player3 with direction := d }
    | none => player3
  let player5 : Player :=
    match data.isMoving with
    | some b => { player4 with isMoving := b }
    | none => player4
  match data.invincibleUntil with
  | some v => if v = 0 then player5 else { player5 with invincibleUntil := v }
  | none => player5

/-- The move handler. Unknown senders are ignored; otherwise the registered
player is mutated by `movedPlayer` (trail recording, cap, position and
optional-field application) and the delta plus the full current trail are
broadcast to every other session. -/
def moveHandler (s : GameState) (sid : String) (data : MoveData) (now : Int) :
    GameState × List Emit :=
  match getPlayer s sid with
  | none => (s, [])
  | some player =>
    let player6 := movedPlayer player data now
    (setPlayer s sid player6,
     [Emit.toOthers sid (GameEvent.playerMoved sid data player6.trail)])

theorem movedPlayer_x (p : Player) (data : MoveData) (now : Int) :
    (movedPlayer p data now).x = data.x := by
  simp only [movedPlayer]
  repeat' split
  all_goals simp

theorem movedPlayer_y (p : Player) (data : MoveData) (now : Int) :
    (movedPlayer p data now).y = data.y := by
  simp only [movedPlayer]
  repeat' split
  all_goals simp

theorem movedPlayer_direction (p : Player) (data : MoveData) (now : Int) :
    (movedPlayer p data now).direction = data.direction.getD p.direction := by
  simp only [movedPlayer]
  repeat' split
  all_goals simp_all

theorem movedPlayer_isMoving (p : Player) (data : MoveData) (now : Int) :
    (movedPlayer p data now).isMoving = data.isMoving.getD p.isMoving := by
  simp only [movedPlayer]
  repeat' split
  all_goals simp_all

theorem movedPlayer_invincibleUntil (p : Player) (data : MoveData) (now : Int) :
    (movedPlayer p data now).invincibleUntil =
      match data.invincibleUntil with
      | some v => if v = 0 then p.invincibleUntil else v
      | none => p.invincibleUntil := by
  simp only [movedPlayer]
  repeat' split
  all_goals simp_all

theorem movedPlayer_trail_moving (p : Player) (data : MoveData) (now : Int)
    (hm : data.isMoving = some true) :
    (movedPlayer p data now).trail = capTrail (p.trail ++ [recordedSegment p now]) := by
  simp only [movedPlayer, hm]
  repeat' split
  all_goals simp_all

theorem moveHandler_getPlayer_self (s : GameState) (sid : String)
    (data : MoveData) (now : Int) (p : Player) (hp : getPlayer s sid = some p) :
    getPlayer (moveHandler s sid data now).1 sid = some (movedPlayer p data now) := by
  simp [moveHandler, hp, getPlayer_setPlayer_self]

/-- The killPlayer handler, victim keyed by the sending session id. Absent
victim aborts silently. Otherwise: broadcast playerDied; respawn the victim
at the arena center (400, 300) facing down, not moving, trail cleared, with
a fresh 2000 ms invincibility window; notify the victim (selfRespawn) and
everyone (serverRespawn); then arbitrate scoring. The definitive check
`killedBy = victim id` short-circuits to a no-score self-kill notification.
Otherwise a truthy killedBy is looked up: if found, any self-kill signal
(the aggregated isSelfKill disjunction or the redundant flags) suppresses
scoring; only with all signals clear is the killer's score incremented and
broadcast; a missing killer is only logged, with no score event. A falsy
killedBy falls through to the no-score self-kill notification. -/
def killPlayer (s : GameState) (sid : String) (data : KillData) (now : Int) :
    GameState × List Emit :=
  match getPlayer s sid with
  | none => (s, [])
  | some player =>
    let deathType := jsStringOr data.collisionType "player"
    let killedUsername := player.username
    let diedEvt := Emit.toAll (GameEvent.playerDied sid player.username deathType)
    let invUntil := now + 2000
    let player1 : Player :=
      { player with
        x := 400,
        y := 300,
        direction := Direction.down,
        isMoving := false,
        invincibleUntil := invUntil,
        trail := [] }
    let s1 := setPlayer s sid player1
    let selfEvt := Emit.toOne sid (GameEvent.selfRespawn 400 300 invUntil)
    let respEvt := Emit.toAll (GameEvent.serverRespawn sid 400 300 invUntil)
    let isSelfKill : Bool :=
      decide (data.isSelfKill = some true) ||
      decide (data.killedBy = some sid) ||
      decide (data.collisionType = some "self-trail") ||
      decide (data.collisionType = some "self") ||
      !(jsTruthy data.killedBy) ||
      decide (data.killerIsDeadPlayer = some true) ||
      decide (data.deadPlayerIsKiller = some true) ||
      decide (data.killerIdMatchesVictimId = some true)
    if data.killedBy = some sid then
      (s1, [diedEvt, selfEvt, respEvt,
        Emit.toAll (GameEvent.scoreUpdated
          { id := sid, score := player.score, username := player.username,
            killedUsername := player.username, deathType := deathType,
            isSelfKill := true })])
    else
      match data.killedBy with
      | some kid =>
        if kid = "" then
          (s1, [diedEvt, selfEvt, respEvt,
            Emit.toAll (GameEvent.scoreUpdated
              { id := sid, score := player.score, username := player.username,
                killedUsername := player.username, deathType := deathType,
                isSelfKill := true })])
        else
          match getPlayer s1 kid with
          | some killer =>
            let anyPossibleSelfKill : Bool :=
              isSelfKill ||
              decide (killer.id = sid) ||
              decide (data.isSelfKill = some true) ||
              decide (data.killerIsDeadPlayer = some true) ||
              decide (data.deadPlayerIsKiller = some true) ||
              decide (data.killerIdMatchesVictimId = some true)
            if anyPossibleSelfKill then
              (s1, [diedEvt, selfEvt, respEvt,
                Emit.toAll (GameEvent.scoreUpdated
                  { id := kid, score := killer.score, username := killer.username,
                    killedUsername := killedUsername, deathType := deathType,
                    isSelfKill := true })])
            else
              let killer1 : Player := { killer with score := killer.score + 1 }
              (setPlayer s1 kid killer1,
               [diedEvt, selfEvt, respEvt,
                Emit.toAll (GameEvent.scoreUpdated
                  { id := kid, score := killer1.score, username := killer.username,
                    killedUsername := killedUsername, deathType := deathType,
                    isSelfKill := false })])
          | none => (s1, [diedEvt, selfEvt, respEvt])
      | none =>
        (s1, [diedEvt, selfEvt, respEvt,
          Emit.toAll (GameEvent.scoreUpdated
            { id := sid, score := player.score, username := player.username,
              killedUsername := player.username, deathType := deathType,
              isSelfKill := true })])

/-- A concrete registered player used to instantiate the theorems. -/
def pAlice : Player :=
  { id := "a", x := 10, y := 20, username := "alice", color := "#FF5733",
    direction := Direction.up, spriteRow := 0, isMoving := true,
    invincibleUntil := 0, score := 3,
    trail := [{ x := 10, y := 20, timestamp := 5, isInvincible := false }] }

/-- A second concrete registered player. -/
def pBob : Player :=
  { id := "b", x := 50, y := 60, username := "bob", color := "#33FF57",
    direction := Direction.left, spriteRow := 1, isMoving := false,
    invincibleUntil := 0, score := 7, trail := [] }

/-- A concrete two-player registry. -/
def st0 : GameState := [("a", pAlice), ("b", pBob)]

/-- Claim C1: a kill claim whose claimed killer id equals the victim's own
session id changes no score, whatever the other client-supplied flags say,
and a scoreUpdated broadcast goes out carrying the victim's unchanged score,
the victim's username as both names, and isSelfKill = true. -/
theorem killPlayer_definitive_selfkill (s : GameState) (sid : String)
    (data : KillData) (now : Int) (victim : Player)
    (hv : getPlayer s sid = some victim)
    (hsame : data.killedBy = some sid) :
    sameScores s (killPlayer s sid data now).1 ∧
    Emit.toAll (GameEvent.scoreUpdated
      { id := sid, score := victim.score, username := victim.username,
        killedUsername := victim.username,
        deathType := jsStringOr data.collisionType "player",
        isSelfKill := true }) ∈ (killPlayer s sid data now).2 := by
  constructor
  · intro q
    by_cases hq : q = sid
    · subst hq
      simp [killPlayer, hv, hsame, getPlayer_setPlayer_self]
    · simp [killPlayer, hv, hsame, getPlayer_setPlayer_ne _ _ _ _ hq]
  · simp [killPlayer, hv, hsame]

/-- Concrete instantiation of the definitive self-kill theorem: alice claims
she was killed by her own id, with a legitimate-looking collision type and
every self-kill flag denied; scores still do not change. -/
theorem killPlayer_definitive_selfkill_witness :
    sameScores st0 (killPlayer st0 "a"
      { killedBy := some "a", killerUsername := some "bob",
        collisionType := some "trail", isSelfKill := some false,
        killerIsDeadPlayer := some false, deadPlayerIsKiller := some false,
        killerIdMatchesVictimId := some false } 1000).1 ∧
    Emit.toAll (GameEvent.scoreUpdated
      { id := "a", score := pAlice.score, username := pAlice.username,
        killedUsername := pAlice.username, deathType := "trail",
        isSelfKill := true }) ∈ (killPlayer st0 "a"
      { killedBy := some "a", killerUsername := some "bob",
        collisionType := some "trail", isSelfKill := some false,
        killerIsDeadPlayer := some false, deadPlayerIsKiller := some false,
        killerIdMatchesVictimId := some false } 1000).2 :=
  killPlayer_definitive_selfkill st0 "a"
    { killedBy := some "a", killerUsername := some "bob",
      collisionType := some "trail", isSelfKill := some false,
      killerIsDeadPlayer := some false, deadPlayerIsKiller := some false,
      killerIdMatchesVictimId := some false } 1000 pAlice (by decide) (by decide)

/-- Claim C2: a kill claim naming a present, distinct, registered killer with
every self-kill signal clear increments exactly that killer's score by 1 in
the registry, changes no other score, and broadcasts scoreUpdated with the
incremented score, the killer's and victim's usernames, the (defaulted)
collision type and isSelfKill = false. The hypothesis `killer.id = kid`
records that the registry stores each player under its own id, which holds
for every registry built by the join handler. -/
theorem killPlayer_legitimate_kill (s : GameState) (sid kid : String)
    (data : KillData) (now : Int) (victim killer : Player)
    (hv : getPlayer s sid = some victim)
    (hkb : data.killedBy = some kid)
    (hne : kid ≠ sid)
    (hnempty : kid ≠ "")
    (hk : getPlayer s kid = some killer)
    (hid : killer.id = kid)
    (h1 : data.isSelfKill ≠ some true)
    (h2 : data.collisionType ≠ some "self-trail")
    (h3 : data.collisionType ≠ some "self")
    (h4 : data.killerIsDeadPlayer ≠ some true)
    (h5 : data.deadPlayerIsKiller ≠ some true)
    (h6 : data.killerIdMatchesVictimId ≠ some true) :
    (getPlayer (killPlayer s sid data now).1 kid).map Player.score
      = some (killer.score + 1) ∧
    sameScoresExcept s (killPlayer s sid data now).1 kid ∧
    Emit.toAll (GameEvent.scoreUpdated
      { id := kid, score := killer.score + 1, username := killer.username,
        killedUsername := victim.username,
        deathType := jsStringOr data.collisionType "player",
        isSelfKill := false }) ∈ (killPlayer s sid data now).2 := by
  have hrw : ∀ p : Player, getPlayer (setPlayer s sid p) kid = getPlayer s kid :=
    fun p => getPlayer_setPlayer_ne s sid kid p hne
  have hks : killer.id ≠ sid := by rw [hid]; exact hne
  refine ⟨?_, ?_, ?_⟩
  · simp [killPlayer, hv, hkb, hne, hnempty, hrw, hk, hks,
      h1, h2, h3, h4, h5, h6, jsTruthy, getPlayer_setPlayer_self]
  · intro q hq
    by_cases hqs : q = sid
    · subst hqs
      simp [killPlayer, hv, hkb, hne, hnempty, hrw, hk, hks,
        h1, h2, h3, h4, h5, h6, jsTruthy,
        getPlayer_setPlayer_ne _ _ _ _ hq, getPlayer_setPlayer_self]
    · simp [killPlayer, hv, hkb, hne, hnempty, hrw, hk, hks,
        h1, h2, h3, h4, h5, h6, jsTruthy,
        getPlayer_setPlayer_ne _ _ _ _ hq, getPlayer_setPlayer_ne _ _ _ _ hqs]
  · simp [killPlayer, hv, hkb, hne, hnempty, hrw, hk, hks,
      h1, h2, h3, h4, h5, h6, jsTruthy]

/-- Concrete instantiation of the legitimate-kill theorem: alice claims bob
killed her, no self-kill signal set; bob's score goes from 7 to 8 and the
broadcast carries score 8 and isSelfKill = false. -/
theorem killPlayer_legitimate_kill_witness :
    (getPlayer (killPlayer st0 "a"
      { killedBy := some "b", killerUsername := some "bob",
        collisionType := some "trail" } 1000).1 "b").map Player.score
      = some (pBob.score + 1) ∧
    sameScoresExcept st0 (killPlayer st0 "a"
      { killedBy := some "b", killerUsername := some "bob",
        collisionType := some "trail" } 1000).1 "b" ∧
    Emit.toAll (GameEvent.scoreUpdated
      { id := "b", score := pBob.score + 1, username := pBob.username,
        killedUsername := pAlice.username, deathType := "trail",
        isSelfKill := false }) ∈ (killPlayer st0 "a"
      { killedBy := some "b", killerUsername := some "bob",
        collisionType := some "trail" } 1000).2 :=
  killPlayer_legitimate_kill st0 "a" "b"
    { killedBy := some "b", killerUsername := some "bob",
      collisionType := some "trail" } 1000 pAlice pBob
    (by decide) (by decide) (by decide) (by decide) (by decide) (by decide)
    (by decide) (by decide) (by decide) (by decide) (by decide) (by decide)

/-- Helper: in every branch of killPlayer with a registered victim, the
victim ends respawned at the center with a fresh window, and the two respawn
messages are among the emissions. -/
theorem killPlayer_victim_resolution (s : GameState) (sid : String)
    (data : KillData) (now : Int) (victim : Player)
    (hv : getPlayer s sid = some victim) :
    getPlayer (killPlayer s sid data now).1 sid = some
      { victim with
        x := 400,
        y := 300,
        direction := Direction.down,
        isMoving := false,
        invincibleUntil := now + 2000,
        trail := [] } ∧
    now < now + 2000 ∧
    Emit.toOne sid (GameEvent.selfRespawn 400 300 (now + 2000))
      ∈ (killPlayer s sid data now).2 ∧
    Emit.toAll (GameEvent.serverRespawn sid 400 300 (now + 2000))
      ∈ (killPlayer s sid data now).2 := by
  have hlt : now < now + 2000 := by omega
  rcases hkb : data.killedBy with _ | kid
  · simp [killPlayer, hv, hkb, getPlayer_setPlayer_self, hlt]
  · by_cases hks : kid = sid
    · subst hks
      simp [killPlayer, hv, hkb, getPlayer_setPlayer_self, hlt]
    · have hrw : ∀ p : Player, getPlayer (setPlayer s sid p) kid = getPlayer s kid :=
        fun p => getPlayer_setPlayer_ne s sid kid p hks
      have hsk : sid ≠ kid := Ne.symm hks
      by_cases hke : kid = ""
      · simp [killPlayer, hv, hkb, hks, hke, getPlayer_setPlayer_self, hlt]
      · rcases hgk : getPlayer s kid with _ | killer
        · simp [killPlayer, hv, hkb, hks, hke, hrw, hgk,
            getPlayer_setPlayer_self, hlt]
        · simp only [killPlayer, hv, hkb, Option.some.injEq, hks, hke, hrw, hgk]
          split
          · contradiction
          · split
            · simp [getPlayer_setPlayer_self, hlt]
            · simp [getPlayer_setPlayer_self, hlt,
                getPlayer_setPlayer_ne _ _ _ _ hsk]

/-- Claim C3: every kill claim with a registered victim respawns that victim
in the same resolution step: center position (400, 300), facing down, not
moving, empty trail, invincible until now + 2000 (a future instant), with a
selfRespawn message to the victim and a serverRespawn broadcast to all. -/
theorem killPlayer_respawns_victim (s : GameState) (sid : String)
    (data : KillData) (now : Int) (victim : Player)
    (hv : getPlayer s sid = some victim) :
    getPlayer (killPlayer s sid data now).1 sid = some
      { victim with
        x := 400,
        y := 300,
        direction := Direction.down,
        isMoving := false,
        invincibleUntil := now + 2000,
        trail := [] } ∧
    now < now + 2000 ∧
    Emit.toOne sid (GameEvent.selfRespawn 400 300 (now + 2000))
      ∈ (killPlayer s sid data now).2 ∧
    Emit.toAll (GameEvent.serverRespawn sid 400 300 (now + 2000))
      ∈ (killPlayer s sid data now).2 :=
  killPlayer_victim_resolution s sid data now victim hv

/-- Concrete instantiation of the respawn theorem: alice is respawned at the
arena center with a fresh invincibility window after a kill claim. -/
theorem killPlayer_respawns_victim_witness :
    getPlayer (killPlayer st0 "a" { killedBy := some "b" } 1000).1 "a" = some
      { pAlice with
        x := 400,
        y := 300,
        direction := Direction.down,
        isMoving := false,
        invincibleUntil := 1000 + 2000,
        trail := [] } ∧
    (1000 : Int) < 1000 + 2000 ∧
    Emit.toOne "a" (GameEvent.selfRespawn 400 300 (1000 + 2000))
      ∈ (killPlayer st0 "a" { killedBy := some "b" } 1000).2 ∧
    Emit.toAll (GameEvent.serverRespawn "a" 400 300 (1000 + 2000))
      ∈ (killPlayer st0 "a" { killedBy := some "b" } 1000).2 :=
  killPlayer_respawns_victim st0 "a" { killedBy := some "b" } 1000 pAlice (by decide)

/-- Claim C5: a kill claim from a session with no registered player is a
complete no-op: the registry is returned unchanged and nothing is emitted. -/
theorem killPlayer_unknown_victim_noop (s : GameState) (sid : String)
    (data : KillData) (now : Int) (hv : getPlayer s sid = none) :
    killPlayer s sid data now = (s, []) := by
  simp [killPlayer, hv]

/-- Concrete instantiation of the unknown-victim theorem: a kill claim from
an unregistered session leaves the two-player registry untouched and silent. -/
theorem killPlayer_unknown_victim_noop_witness :
    killPlayer st0 "ghost" { killedBy := some "b" } 1000 = (st0, []) :=
  killPlayer_unknown_victim_noop st0 "ghost" { killedBy := some "b" } 1000 (by decide)

/-- The claimed killer id of a kill claim is absent or does not resolve:
either the field is missing, or it is the empty (falsy) string, or no player
is registered under it. -/
def killerUnresolvable (s : GameState) (data : KillData) : Prop :=
  match data.killedBy with
  | none => True
  | some kid => kid = "" ∨ getPlayer s kid = none

/-- Counterexample to claim C4: alice is registered and claims she was killed
by the unregistered id ghost with no self-kill flag set; the handler emits
only the death and respawn events — no scoreUpdated event at all, where the
claim promises a scoreUpdated with isSelfKill = true. -/
theorem killPlayer_unresolvable_counterexample :
    getPlayer st0 "a" = some pAlice ∧
    getPlayer st0 "ghost" = none ∧
    (killPlayer st0 "a" { killedBy := some "ghost" } 1000).2 =
      [Emit.toAll (GameEvent.playerDied "a" "alice" "player"),
       Emit.toOne "a" (GameEvent.selfRespawn 400 300 3000),
       Emit.toAll (GameEvent.serverRespawn "a" 400 300 3000)] := by
  decide

/-- The emissions the amended claim predicts for an unresolvable killer,
written from the amended claim's words (not from the source, so the theorem
below compares the handler against it): the death and respawn messages,
followed by a self-kill scoreUpdated with the victim's unchanged score
exactly when the claimed killer id is absent (falsy), and by nothing — in
particular no scoreUpdated — when it is present but unregistered. -/
def unresolvableEmissions (sid : String) (data : KillData) (now : Int)
    (victim : Player) : List Emit :=
  let deathType := jsStringOr data.collisionType "player"
  let base : List Emit :=
    [Emit.toAll (GameEvent.playerDied sid victim.username deathType),
     Emit.toOne sid (GameEvent.selfRespawn 400 300 (now + 2000)),
     Emit.toAll (GameEvent.serverRespawn sid 400 300 (now + 2000))]
  if jsTruthy data.killedBy then
    base
  else
    base ++ [Emit.toAll (GameEvent.scoreUpdated
      { id := sid, score := victim.score, username := victim.username,
        killedUsername := victim.username, deathType := deathType,
        isSelfKill := true })]

/-- Claim C4 as amended: with a registered victim and an absent or
unresolvable claimed killer, no score changes, and the emissions are exactly
the case-determined list `unresolvableEmissions`: death + both respawn
messages followed by a self-kill scoreUpdated carrying the victim's
unchanged score when the killer id is absent (falsy), and exactly death +
both respawn messages with no scoreUpdated at all when the killer id is
present but not registered. -/
theorem killPlayer_unresolvable_killer_amended (s : GameState) (sid : String)
    (data : KillData) (now : Int) (victim : Player)
    (hv : getPlayer s sid = some victim)
    (hun : killerUnresolvable s data) :
    sameScores s (killPlayer s sid data now).1 ∧
    (killPlayer s sid data now).2 = unresolvableEmissions sid data now victim := by
  have hscore : ∀ p1 : Player, p1.score = victim.score →
      sameScores s (setPlayer s sid p1) := by
    intro p1 hp1 q
    by_cases hq : q = sid
    · subst hq
      simp [getPlayer_setPlayer_self, hp1, hv]
    · simp [getPlayer_setPlayer_ne _ _ _ _ hq]
  simp only [killPlayer, hv]
  split
  · rename_i hsame
    have hsid : sid = "" := by
      simp only [killerUnresolvable, hsame] at hun
      rcases hun with h | h
      · exact h
      · rw [h] at hv
        cases hv
    refine ⟨hscore _ rfl, ?_⟩
    simp [unresolvableEmissions, hsame, hsid, jsTruthy]
  · rename_i hnsame
    split
    · rename_i kid hkb
      by_cases hke : kid = ""
      · rw [if_pos hke]
        refine ⟨hscore _ rfl, ?_⟩
        simp [unresolvableEmissions, hkb, hke, jsTruthy]
      · rw [if_neg hke]
        have hkid_ne : kid ≠ sid := by
          intro e
          exact hnsame (by rw [hkb, e])
        have hgn : getPlayer s kid = none := by
          simp only [killerUnresolvable, hkb] at hun
          rcases hun with h | h
          · exact absurd h hke
          · exact h
        rw [getPlayer_setPlayer_ne _ _ _ _ hkid_ne, hgn]
        refine ⟨hscore _ rfl, ?_⟩
        simp [unresolvableEmissions, hkb, hke, jsTruthy]
    · rename_i hkb
      refine ⟨hscore _ rfl, ?_⟩
      simp [unresolvableEmissions, hkb, jsTruthy]

/-- Concrete instantiation of the amended claim in both cases: a claim with
killedBy absent entirely (scores unchanged, emission list ends in the
self-kill scoreUpdated) and a claim naming the unregistered id ghost (scores
unchanged, emission list is death + respawns with no scoreUpdated). -/
theorem killPlayer_unresolvable_killer_amended_witness :
    (sameScores st0 (killPlayer st0 "a" { killedBy := none } 1000).1 ∧
     (killPlayer st0 "a" { killedBy := none } 1000).2 =
       unresolvableEmissions "a" { killedBy := none } 1000 pAlice) ∧
    (sameScores st0 (killPlayer st0 "a" { killedBy := some "ghost" } 1000).1 ∧
     (killPlayer st0 "a" { killedBy := some "ghost" } 1000).2 =
       unresolvableEmissions "a" { killedBy := some "ghost" } 1000 pAlice) :=
  ⟨killPlayer_unresolvable_killer_amended st0 "a" { killedBy := none }
     1000 pAlice (by decide) (by exact trivial),
   killPlayer_unresolvable_killer_amended st0 "a" { killedBy := some "ghost" }
     1000 pAlice (by decide) (by exact Or.inr (by decide))⟩

theorem capTrail_length (t : List TrailSegment) :
    (capTrail t).length = min t.length 40 := by
  unfold capTrail
  split
  · rw [List.length_drop]
    omega
  · omega

theorem capTrail_isSuffix (t : List TrailSegment) :
    List.IsSuffix (capTrail t) t := by
  unfold capTrail
  split
  · exact List.drop_suffix _ _
  · exact List.suffix_refl _

/-- Claim C6: a move with the moving flag set leaves the player's trail
capped at 40 segments; the new trail is exactly the old trail plus one
appended segment with the cap applied, so the retained segments are a suffix
of the appended sequence — the most recently recorded ones, evicting from
the front. -/
theorem move_trail_cap (s : GameState) (sid : String) (data : MoveData)
    (now : Int) (p : Player)
    (hp : getPlayer s sid = some p)
    (hm : data.isMoving = some true) :
    (getPlayer (moveHandler s sid data now).1 sid).map Player.trail =
      some (capTrail (p.trail ++ [recordedSegment p now])) ∧
    (capTrail (p.trail ++ [recordedSegment p now])).length ≤ 40 ∧
    List.IsSuffix (capTrail (p.trail ++ [recordedSegment p now]))
      (p.trail ++ [recordedSegment p now]) := by
  refine ⟨?_, ?_, capTrail_isSuffix _⟩
  · rw [moveHandler_getPlayer_self s sid data now p hp]
    simp [movedPlayer_trail_moving p data now hm]
  · rw [capTrail_length]
    omega

/-- Concrete instantiation of the trail-cap theorem: alice, already carrying
one trail segment, reports a move while moving. -/
theorem move_trail_cap_witness :
    (getPlayer (moveHandler st0 "a"
      { x := 11, y := 21, isMoving := some true } 7).1 "a").map Player.trail =
      some (capTrail (pAlice.trail ++ [recordedSegment pAlice 7])) ∧
    (capTrail (pAlice.trail ++ [recordedSegment pAlice 7])).length ≤ 40 ∧
    List.IsSuffix (capTrail (pAlice.trail ++ [recordedSegment pAlice 7]))
      (pAlice.trail ++ [recordedSegment pAlice 7]) :=
  move_trail_cap st0 "a" { x := 11, y := 21, isMoving := some true } 7 pAlice
    (by decide) (by decide)

/-- Claim C7: a move with the moving flag set appends exactly one segment,
taken at the pre-update registry position (not the newly reported one) and
tagged with the live invincibility status now < invincibleUntil, and only
then is the reported position applied over the stored one. -/
theorem move_records_preupdate_segment (s : GameState) (sid : String)
    (data : MoveData) (now : Int) (p : Player)
    (hp : getPlayer s sid = some p)
    (hm : data.isMoving = some true) :
    (getPlayer (moveHandler s sid data now).1 sid).map Player.trail =
      some (capTrail (p.trail ++ [recordedSegment p now])) ∧
    (recordedSegment p now).x = p.x ∧
    (recordedSegment p now).y = p.y ∧
    (recordedSegment p now).isInvincible = decide (now < p.invincibleUntil) ∧
    (getPlayer (moveHandler s sid data now).1 sid).map Player.x = some data.x ∧
    (getPlayer (moveHandler s sid data now).1 sid).map Player.y = some data.y := by
  rw [moveHandler_getPlayer_self s sid data now p hp]
  refine ⟨?_, rfl, rfl, rfl, ?_, ?_⟩
  · simp [movedPlayer_trail_moving p data now hm]
  · simp [movedPlayer_x]
  · simp [movedPlayer_y]

/-- Concrete instantiation of the pre-update segment theorem: alice moves
from (10, 20) to (11, 21); the recorded segment is at (10, 20) while her
stored position becomes (11, 21). -/
theorem move_records_preupdate_segment_witness :
    (getPlayer (moveHandler st0 "a"
      { x := 11, y := 21, isMoving := some true } 7).1 "a").map Player.trail =
      some (capTrail (pAlice.trail ++ [recordedSegment pAlice 7])) ∧
    (recordedSegment pAlice 7).x = pAlice.x ∧
    (recordedSegment pAlice 7).y = pAlice.y ∧
    (recordedSegment pAlice 7).isInvincible = decide ((7 : Int) < pAlice.invincibleUntil) ∧
    (getPlayer (moveHandler st0 "a"
      { x := 11, y := 21, isMoving := some true } 7).1 "a").map Player.x = some 11 ∧
    (getPlayer (moveHandler st0 "a"
      { x := 11, y := 21, isMoving := some true } 7).1 "a").map Player.y = some 21 :=
  move_records_preupdate_segment st0 "a" { x := 11, y := 21, isMoving := some true }
    7 pAlice (by decide) (by decide)

/-- Claim C10: a move reporting invincibleUntil = 0 does not change the
stored invincibility timestamp (only truthy, i.e. nonzero, values are
copied), while the same event's position, direction and moving flag are
still applied. -/
theorem move_zero_invincibility_ignored (s : GameState) (sid : String)
    (data : MoveData) (now : Int) (p : Player)
    (hp : getPlayer s sid = some p)
    (hz : data.invincibleUntil = some 0) :
    (getPlayer (moveHandler s sid data now).1 sid).map Player.invincibleUntil
      = some p.invincibleUntil ∧
    (getPlayer (moveHandler s sid data now).1 sid).map Player.x = some data.x ∧
    (getPlayer (moveHandler s sid data now).1 sid).map Player.y = some data.y ∧
    (getPlayer (moveHandler s sid data now).1 sid).map Player.direction
      = some (data.direction.getD p.direction) ∧
    (getPlayer (moveHandler s sid data now).1 sid).map Player.isMoving
      = some (data.isMoving.getD p.isMoving) := by
  rw [moveHandler_getPlayer_self s sid data now p hp]
  simp [movedPlayer_x, movedPlayer_y, movedPlayer_direction,
    movedPlayer_isMoving, movedPlayer_invincibleUntil, hz]

/-- Concrete instantiation of the zero-invincibility theorem: alice reports
invincibleUntil = 0 along with a position, direction and moving flag; the
stored timestamp stays 0 as before while the rest is applied. -/
theorem move_zero_invincibility_ignored_witness :
    (getPlayer (moveHandler st0 "a"
      { x := 11, y := 21, direction := some Direction.left,
        isMoving := some false, invincibleUntil := some 0 } 7).1 "a").map
      Player.invincibleUntil = some pAlice.invincibleUntil ∧
    (getPlayer (moveHandler st0 "a"
      { x := 11, y := 21, direction := some Direction.left,
        isMoving := some false, invincibleUntil := some 0 } 7).1 "a").map
      Player.x = some 11 ∧
    (getPlayer (moveHandler st0 "a"
      { x := 11, y := 21, direction := some Direction.left,
        isMoving := some false, invincibleUntil := some 0 } 7).1 "a").map
      Player.y = some 21 ∧
    (getPlayer (moveHandler st0 "a"
      { x := 11, y := 21, direction := some Direction.left,
        isMoving := some false, invincibleUntil := some 0 } 7).1 "a").map
      Player.direction = some ((some Direction.left).getD pAlice.direction) ∧
    (getPlayer (moveHandler st0 "a"
      { x := 11, y := 21, direction := some Direction.left,
        isMoving := some false, invincibleUntil := some 0 } 7).1 "a").map
      Player.isMoving = some ((some false).getD pAlice.isMoving) :=
  move_zero_invincibility_ignored st0 "a"
    { x := 11, y := 21, direction := some Direction.left,
      isMoving := some false, invincibleUntil := some 0 } 7 pAlice
    (by decide) (by decide)

/-- A concrete player whose invincibility window (until 5000) is active at
time 1000. -/
def pCarol : Player :=
  { id := "c", x := 0, y := 0, username := "carol", color := "#3357FF",
    direction := Direction.down, spriteRow := 2, isMoving := false,
    invincibleUntil := 5000, score := 0, trail := [] }

/-- A concrete one-player registry with an active invincibility window. -/
def stInv : GameState := [("c", pCarol)]

/-- Counterexample to claim C8: at time 1000 carol's invincibility window is
active (until 5000), yet a single move event reporting invincibleUntil = 1
replaces it with the past expiry 1 — an operation does shorten an active
window, so invincibleUntil is not monotonic under client moves. -/
theorem move_shortens_active_invincibility_counterexample :
    (getPlayer stInv "c").map Player.invincibleUntil = some 5000 ∧
    (1000 : Int) < 5000 ∧
    (getPlayer (moveHandler stInv "c"
      { x := 1, y := 1, invincibleUntil := some 1 } 1000).1 "c").map
      Player.invincibleUntil = some 1 ∧
    (1 : Int) < 1000 ∧ (1 : Int) < 5000 := by
  decide

/-- Claim C8 as amended: the server-initiated grants keep the promise — both
the kill-respawn and join set invincibleUntil to now + 2000, which lies in
the future at grant time — but the move handler copies any nonzero
client-reported invincibleUntil verbatim, so a move event can replace an
active window with an earlier (even past) expiry. -/
theorem server_grants_future_invincibility (s : GameState)
    (sid username : String) (data : KillData) (rx ry : Int)
    (rColor rSprite : Nat) (now : Int) (victim : Player)
    (hv : getPlayer s sid = some victim) :
    ((getPlayer (killPlayer s sid data now).1 sid).map Player.invincibleUntil
       = some (now + 2000) ∧ now < now + 2000) ∧
    ((getPlayer (joinHandler s sid username rx ry rColor rSprite now).1 sid).map
       Player.invincibleUntil = some (now + 2000) ∧ now < now + 2000) := by
  refine ⟨⟨?_, by omega⟩, ?_, by omega⟩
  · rw [(killPlayer_victim_resolution s sid data now victim hv).1]
    rfl
  · simp [joinHandler, getPlayer_setPlayer_self]

/-- Concrete instantiation of the server-grant theorem at time 1000: both the
kill-respawn of alice and a fresh join set the window to 3000, in the future. -/
theorem server_grants_future_invincibility_witness :
    ((getPlayer (killPlayer st0 "a" { killedBy := some "b" } 1000).1 "a").map
       Player.invincibleUntil = some (1000 + 2000) ∧ (1000 : Int) < 1000 + 2000) ∧
    ((getPlayer (joinHandler st0 "a" "alice" 5 6 3 2 1000).1 "a").map
       Player.invincibleUntil = some (1000 + 2000) ∧ (1000 : Int) < 1000 + 2000) :=
  server_grants_future_invincibility st0 "a" "alice" { killedBy := some "b" }
    5 6 3 2 1000 pAlice (by decide)

/-- Counterexample to claim C9: alice already uses palette color FF5733 and
the palette color 3357FF is used by nobody, yet the join of carol with random
draw 0 is assigned FF5733 — a color in use — although an unused palette color
existed; no in-use check occurs. -/
theorem join_color_in_use_counterexample :
    (getPlayer st0 "a").map Player.color = some "#FF5733" ∧
    "#3357FF" ∈ palette ∧
    ("#3357FF" ∈ st0.map (fun kp => kp.2.color)) = False ∧
    (getPlayer (joinHandler st0 "c" "carol" 5 5 0 2 1000).1 "c").map Player.color
      = some "#FF5733" ∧
    "#FF5733" ∈ st0.map (fun kp => kp.2.color) := by
  simp [st0, pAlice, pBob, joinHandler, getRandomColor, palette,
    getPlayer, setPlayer]

/-- Claim C9 as amended: the color a joining player is assigned is the
palette entry at the uniform random draw — always one of the fixed 16 palette
colors — with no preference for colors not in use and no RGB perturbation. -/
theorem join_color_uniform_palette (s : GameState) (sid username : String)
    (rx ry : Int) (rColor rSprite : Nat) (now : Int)
    (h : rColor < 16) :
    getRandomColor rColor ∈ palette ∧
    (getPlayer (joinHandler s sid username rx ry rColor rSprite now).1 sid).map
      Player.color = some (getRandomColor rColor) := by
  constructor
  · interval_cases rColor <;> decide
  · simp [joinHandler, getPlayer_setPlayer_self]

/-- Concrete instantiation of the amended color theorem: draw 2 hands the
joining player the third palette color, regardless of it being in use. -/
theorem join_color_uniform_palette_witness :
    getRandomColor 2 ∈ palette ∧
    (getPlayer (joinHandler st0 "c" "carol" 5 5 2 2 1000).1 "c").map
      Player.color = some (getRandomColor 2) :=
  join_color_uniform_palette st0 "c" "carol" 5 5 2 2 1000 (by decide)

end Websnake
